import Mathlib

/-!
Verification of `macaw/core/retrieval/search_engine.py`.

The file defines two abstract classes, `Retrieval` and `ReRanker`.  We give
a shallow embedding: the parameters dict becomes an explicit record of the
three recognised keys (each `Option`, `none` meaning the key is absent, so a
lookup of an absent key is a `KeyError`); the collaborators become pure
functions; the abstract method `retrieve` and the reranker's `rerank` method
become function arguments of `get_results` (they stand for the dynamically
dispatched subclass implementations and may raise).  Each run produces a
trace of the collaborator calls it makes, in order, so that side effects
(logging) and call ordering are observable propositions.
-/

namespace Macaw

/-- Errors a Python call can raise: `KeyError` from a dict lookup of a
missing key, `TypeError` from instantiating an abstract base class, and an
arbitrary error raised inside a collaborator. -/
inductive PyErr where
  | keyError (key : String)
  | typeError
  | other (msg : String)
  deriving DecidableEq, Repr

/-- The query-generation collaborator: exposes `get_query(conv_list)`
returning a query string (spec section 6). -/
structure QueryGen (Msg : Type) where
  get_query : List Msg → String

/-- The parameters bundle of `search_engine.py`: a dict whose recognised
keys are `query_generation`, `logger` and `reranker`.  A field holding
`none` models the key being absent from the dict; `some` holds the value.
The logger's own state is irrelevant to control flow (its `info` calls are
recorded in the execution trace), so its value is `Unit`.  `R` is the type
of the reranker object stored under the `reranker` key. -/
structure Params (Msg Doc R : Type) where
  query_generation : Option (QueryGen Msg)
  logger : Option Unit
  reranker : Option R

/-- One observable collaborator call made by the code in
`search_engine.py`, recorded in order of occurrence. -/
inductive Event (Msg Doc R : Type) where
  | getQueryCall (conv_list : List Msg) (result : String)
  | logInfo (message : String)
  | retrieveCall (query : String)
  | rerankCall (query : String) (conv_list : List Msg) (result_list : List Doc)
      (passed : Params Msg Doc R)

variable {Msg Doc R : Type}

/-- Is the event a logger `info` call? -/
def Event.isLogInfo : Event Msg Doc R → Bool
  | .logInfo _ => true
  | _ => false

/-- Is the event an invocation of `self.retrieve`? -/
def Event.isRetrieveCall : Event Msg Doc R → Bool
  | .retrieveCall _ => true
  | _ => false

/-- The state of a constructed `Retrieval` object: line 20 stores the
bundle in `self.params`, line 21 stores `self.params['query_generation']`
in `self.query_generation`. -/
structure RetrievalInst (Msg Doc R : Type) where
  params : Params Msg Doc R
  query_generation : QueryGen Msg

/-- `Retrieval.__init__` (lines 12-21 of `search_engine.py`):
`self.params = params; self.query_generation = self.params['query_generation']`.
The dict lookup raises `KeyError` when the key is absent.  The returned
trace lists the collaborator calls made during construction (there are
none: `__init__` only reads the dict). -/
def Retrieval.init (params : Params Msg Doc R) :
    List (Event Msg Doc R) × Except PyErr (RetrievalInst Msg Doc R) :=
  match params.query_generation with
  | none => ([], .error (.keyError "query_generation"))
  | some qg => ([], .ok ⟨params, qg⟩)

/-- The outcome of one `get_results` call: the trace of collaborator calls
in order, the returned value (or raised error), and the values of the
parameters bundle and the conversation list when the call ends (the method
body contains no assignment to either, so the embedding of its final state
carries them through unchanged). -/
structure ExecResult (Msg Doc R : Type) where
  trace : List (Event Msg Doc R)
  ret : Except PyErr (List Doc)
  finalParams : Params Msg Doc R
  finalConvList : List Msg

/-- `Retrieval.get_results` (lines 33-49 of `search_engine.py`), embedded
line by line:

* line 44: `query = self.query_generation.get_query(conv_list)`
* line 45: `self.params['logger'].info(f'New query: ...')` — the lookup
  raises `KeyError` when the `logger` key is absent, otherwise the `info`
  call is recorded in the trace with the formatted message;
* line 46: `result_list = self.retrieve(query)` — `retrieve` is the
  abstract method, supplied by the concrete subclass, and may raise;
* lines 47-48: if `'reranker' in self.params`, return
  `self.params['reranker'].rerank(query, conv_list, result_list, self.params)`;
* line 49: otherwise return `result_list`.

`rerankImpl` is the `rerank` method the reranker object dispatches to. -/
def Retrieval.get_results
    (rerankImpl : R → String → List Msg → List Doc → Params Msg Doc R →
      Except PyErr (List Doc))
    (retrieve : String → Except PyErr (List Doc))
    (self : RetrievalInst Msg Doc R) (conv_list : List Msg) :
    ExecResult Msg Doc R :=
  let query := self.query_generation.get_query conv_list
  let t1 : List (Event Msg Doc R) := [.getQueryCall conv_list query]
  match self.params.logger with
  | none => ⟨t1, .error (.keyError "logger"), self.params, conv_list⟩
  | some _ =>
    let t2 := t1 ++ [.logInfo ("New query: " ++ query)]
    let t3 := t2 ++ [.retrieveCall query]
    match retrieve query with
    | .error e => ⟨t3, .error e, self.params, conv_list⟩
    | .ok result_list =>
      match self.params.reranker with
      | some r =>
        ⟨t3 ++ [.rerankCall query conv_list result_list self.params],
          rerankImpl r query conv_list result_list self.params,
          self.params, conv_list⟩
      | none => ⟨t3, .ok result_list, self.params, conv_list⟩

/-- The state of a constructed `ReRanker` object (line 62 stores the bundle
in `self.params`). -/
structure ReRankerInst (Msg Doc R : Type) where
  params : Params Msg Doc R

/-- The body of `ReRanker.__init__` (lines 54-62): `self.params = params`. -/
def ReRanker.init (params : Params Msg Doc R) : ReRankerInst Msg Doc R :=
  ⟨params⟩

/-- `ReRanker.rerank` (lines 64-78 of `search_engine.py`).  The base-class
body is `pass`: the call returns normally (no exception) with Python
`None`, modelled as `Except.ok none`; a subclass override returning a
document list would be `Except.ok (some l)`. -/
def ReRanker.rerank ( _self : ReRankerInst Msg Doc R) (_query : String)
    (_conv_list : List Msg) (_result_list : List Doc)
    (_params : Params Msg Doc R) : Except PyErr (Option (List Doc)) :=
  .ok none

/-- Python ABC semantics for `class Retrieval(ABC)` whose `__init__` and
`retrieve` carry `@abstractmethod` (lines 10-24): instantiating a class
with un-overridden abstract methods raises `TypeError`. -/
def Retrieval.instantiateBase : Except PyErr Unit :=
  .error .typeError

/-- Python ABC semantics for `class ReRanker(ABC)` whose `__init__` carries
`@abstractmethod` (lines 52-54): instantiating it directly raises
`TypeError`. -/
def ReRanker.instantiateBase : Except PyErr Unit :=
  .error .typeError

/-! Concrete fixtures, following the worked example of spec section 8:
a stub query generator returning `"weather today"`, a stub retriever
returning `["doc1", "doc2"]` for that query, and a stub reranker returning
`["doc2"]` regardless of input.  Messages and documents are strings and the
reranker object carries no data (`Unit`). -/

/-- Stub query-generation collaborator of the spec's worked example. -/
def qgStub : QueryGen String :=
  ⟨fun _ => "weather today"⟩

/-- A parameters bundle with `query_generation` and `logger` but no
`reranker` key. -/
def paramsNoRR : Params String String Unit :=
  ⟨some qgStub, some (), none⟩

/-- A parameters bundle with all three keys present. -/
def paramsRR : Params String String Unit :=
  ⟨some qgStub, some (), some ()⟩

/-- A parameters bundle missing the `query_generation` key. -/
def paramsNoQG : Params String String Unit :=
  ⟨none, some (), none⟩

/-- A parameters bundle missing the `logger` key. -/
def paramsNoLogger : Params String String Unit :=
  ⟨some qgStub, none, none⟩

/-- Stub `retrieve` implementation of the spec's worked example. -/
def retrieveStub : String → Except PyErr (List String) :=
  fun q => if q = "weather today" then .ok ["doc1", "doc2"] else .ok []

/-- Stub reranker method of the spec's worked example: returns `["doc2"]`
regardless of input. -/
def rerankStub : Unit → String → List String → List String →
    Params String String Unit → Except PyErr (List String) :=
  fun _ _ _ _ _ => .ok ["doc2"]

/-- A constructed retrieval instance over `paramsNoRR`. -/
def instNoRR : RetrievalInst String String Unit :=
  ⟨paramsNoRR, qgStub⟩

/-- A constructed retrieval instance over `paramsRR`. -/
def instRR : RetrievalInst String String Unit :=
  ⟨paramsRR, qgStub⟩

/-- A constructed retrieval instance over `paramsNoLogger`. -/
def instNoLogger : RetrievalInst String String Unit :=
  ⟨paramsNoLogger, qgStub⟩

/-- C1: with no `reranker` key in the bundle (and the required `logger` key
present), `get_results(conv_list)` returns exactly what `retrieve(query)`
returns, where `query` is the query-generation collaborator's output for
`conv_list` — including propagating an error from `retrieve` unchanged. -/
theorem get_results_no_reranker_is_retrieve
    (rerankImpl : R → String → List Msg → List Doc → Params Msg Doc R →
      Except PyErr (List Doc))
    (retrieve : String → Except PyErr (List Doc))
    (self : RetrievalInst Msg Doc R) (conv_list : List Msg)
    (hlog : self.params.logger = some ())
    (hrr : self.params.reranker = none) :
    (Retrieval.get_results rerankImpl retrieve self conv_list).ret =
      retrieve (self.query_generation.get_query conv_list) := by
  cases hretr : retrieve (self.query_generation.get_query conv_list) with
  | error e => simp [Retrieval.get_results, hlog, hretr]
  | ok l => simp [Retrieval.get_results, hlog, hretr, hrr]

/-- Witness for C1 on the spec's worked example. -/
theorem get_results_no_reranker_is_retrieve_witness :
    (Retrieval.get_results rerankStub retrieveStub instNoRR ["hi"]).ret =
      retrieveStub (instNoRR.query_generation.get_query ["hi"]) :=
  get_results_no_reranker_is_retrieve rerankStub retrieveStub instNoRR
    ["hi"] rfl rfl

/-- C2: with a `reranker` key present, `get_results(conv_list)` returns
exactly the value of the reranker's
`rerank(query, conv_list, result_list, params)` call, where `result_list`
is the output of `retrieve(query)`. -/
theorem get_results_reranker_is_rerank
    (rerankImpl : R → String → List Msg → List Doc → Params Msg Doc R →
      Except PyErr (List Doc))
    (retrieve : String → Except PyErr (List Doc))
    (self : RetrievalInst Msg Doc R) (conv_list : List Msg)
    (r : R) (result_list : List Doc)
    (hlog : self.params.logger = some ())
    (hrr : self.params.reranker = some r)
    (hretr : retrieve (self.query_generation.get_query conv_list) =
      .ok result_list) :
    (Retrieval.get_results rerankImpl retrieve self conv_list).ret =
      rerankImpl r (self.query_generation.get_query conv_list) conv_list
        result_list self.params := by
  simp [Retrieval.get_results, hlog, hrr, hretr]

/-- Witness for C2 on the spec's worked example: the reranked list, not the
raw retrieve output, is returned. -/
theorem get_results_reranker_is_rerank_witness :
    (Retrieval.get_results rerankStub retrieveStub instRR ["hi"]).ret =
      rerankStub () (instRR.query_generation.get_query ["hi"]) ["hi"]
        ["doc1", "doc2"] instRR.params :=
  get_results_reranker_is_rerank rerankStub retrieveStub instRR ["hi"] ()
    ["doc1", "doc2"] rfl rfl rfl

/-- C3: `Retrieval.__init__` on a bundle without the `query_generation` key
raises `KeyError` and performs no retrieval: its trace contains no
`retrieve` call. -/
theorem init_missing_query_generation_fails
    (params : Params Msg Doc R)
    (hqg : params.query_generation = none) :
    (Retrieval.init params).2 = .error (.keyError "query_generation") ∧
      ∀ q, Event.retrieveCall q ∉ (Retrieval.init params).1 := by
  simp [Retrieval.init, hqg]

/-- Witness for C3 on a concrete bundle missing `query_generation`. -/
theorem init_missing_query_generation_fails_witness :
    (Retrieval.init paramsNoQG).2 =
        .error (.keyError "query_generation") ∧
      ∀ q, Event.retrieveCall q ∉ (Retrieval.init paramsNoQG).1 :=
  init_missing_query_generation_fails paramsNoQG rfl

/-- C4: `get_results` on an instance whose bundle lacks the `logger` key
raises `KeyError` after query generation (the trace is exactly the
query-generation call) and before `retrieve`: no `retrieve` call occurs. -/
theorem get_results_missing_logger_fails
    (rerankImpl : R → String → List Msg → List Doc → Params Msg Doc R →
      Except PyErr (List Doc))
    (retrieve : String → Except PyErr (List Doc))
    (self : RetrievalInst Msg Doc R) (conv_list : List Msg)
    (hlog : self.params.logger = none) :
    (Retrieval.get_results rerankImpl retrieve self conv_list).ret =
        .error (.keyError "logger") ∧
      (Retrieval.get_results rerankImpl retrieve self conv_list).trace =
        [Event.getQueryCall conv_list
          (self.query_generation.get_query conv_list)] ∧
      ∀ q, Event.retrieveCall q ∉
        (Retrieval.get_results rerankImpl retrieve self conv_list).trace := by
  simp [Retrieval.get_results, hlog]

/-- Witness for C4 on a concrete bundle missing `logger`. -/
theorem get_results_missing_logger_fails_witness :
    (Retrieval.get_results rerankStub retrieveStub instNoLogger ["hi"]).ret =
        .error (.keyError "logger") ∧
      (Retrieval.get_results rerankStub retrieveStub instNoLogger
          ["hi"]).trace =
        [Event.getQueryCall ["hi"]
          (instNoLogger.query_generation.get_query ["hi"])] ∧
      ∀ q, Event.retrieveCall q ∉
        (Retrieval.get_results rerankStub retrieveStub instNoLogger
          ["hi"]).trace :=
  get_results_missing_logger_fails rerankStub retrieveStub instNoLogger
    ["hi"] rfl

/-- C5: every successful `get_results` call makes exactly one logger `info`
call, and its message contains the generated query as a substring. -/
theorem get_results_logs_query_once
    (rerankImpl : R → String → List Msg → List Doc → Params Msg Doc R →
      Except PyErr (List Doc))
    (retrieve : String → Except PyErr (List Doc))
    (self : RetrievalInst Msg Doc R) (conv_list : List Msg) (l : List Doc)
    (hok : (Retrieval.get_results rerankImpl retrieve self conv_list).ret =
      .ok l) :
    ((Retrieval.get_results rerankImpl retrieve self
        conv_list).trace.filter Event.isLogInfo) =
      [Event.logInfo
        ("New query: " ++ self.query_generation.get_query conv_list)] ∧
    ∃ pre suf,
      "New query: " ++ self.query_generation.get_query conv_list =
        pre ++ self.query_generation.get_query conv_list ++ suf := by
  refine ⟨?_, "New query: ", "", by rw [String.append_empty]⟩
  cases hlog : self.params.logger with
  | none => simp [Retrieval.get_results, hlog] at hok
  | some u =>
    cases hretr : retrieve (self.query_generation.get_query conv_list) with
    | error e => simp [Retrieval.get_results, hlog, hretr] at hok
    | ok rl =>
      cases hrr : self.params.reranker with
      | none =>
        simp [Retrieval.get_results, hlog, hretr, hrr, Event.isLogInfo]
      | some r =>
        simp [Retrieval.get_results, hlog, hretr, hrr, Event.isLogInfo]

/-- Witness for C5 on the spec's worked example. -/
theorem get_results_logs_query_once_witness :
    ((Retrieval.get_results rerankStub retrieveStub instNoRR
        ["hi"]).trace.filter Event.isLogInfo) =
      [Event.logInfo
        ("New query: " ++ instNoRR.query_generation.get_query ["hi"])] ∧
    ∃ pre suf,
      "New query: " ++ instNoRR.query_generation.get_query ["hi"] =
        pre ++ instNoRR.query_generation.get_query ["hi"] ++ suf :=
  get_results_logs_query_once rerankStub retrieveStub instNoRR ["hi"]
    ["doc1", "doc2"] rfl

/-- C6: with no reranker configured, `get_results` leaves both the
parameters bundle and the conversation list exactly as they were. -/
theorem get_results_no_reranker_frame
    (rerankImpl : R → String → List Msg → List Doc → Params Msg Doc R →
      Except PyErr (List Doc))
    (retrieve : String → Except PyErr (List Doc))
    (self : RetrievalInst Msg Doc R) (conv_list : List Msg)
    (hrr : self.params.reranker = none) :
    (Retrieval.get_results rerankImpl retrieve self
        conv_list).finalParams = self.params ∧
      (Retrieval.get_results rerankImpl retrieve self
        conv_list).finalConvList = conv_list := by
  cases hlog : self.params.logger with
  | none => simp [Retrieval.get_results, hlog]
  | some u =>
    cases hretr : retrieve (self.query_generation.get_query conv_list) with
    | error e => simp [Retrieval.get_results, hlog, hretr]
    | ok rl => simp [Retrieval.get_results, hlog, hretr, hrr]

/-- Witness for C6 on the spec's worked example. -/
theorem get_results_no_reranker_frame_witness :
    (Retrieval.get_results rerankStub retrieveStub instNoRR
        ["hi"]).finalParams = instNoRR.params ∧
      (Retrieval.get_results rerankStub retrieveStub instNoRR
        ["hi"]).finalConvList = ["hi"] :=
  get_results_no_reranker_frame rerankStub retrieveStub instNoRR ["hi"] rfl

/-- C7: the base-class `ReRanker.rerank` body is `pass`: for every query,
conversation list, result list and params, the unoverridden call returns
Python `None` — no document list — regardless of its inputs. -/
theorem rerank_base_is_noop
    (self : ReRankerInst Msg Doc R) (query : String) (conv_list : List Msg)
    (result_list : List Doc) (params : Params Msg Doc R) :
    ReRanker.rerank self query conv_list result_list params = .ok none :=
  rfl

/-- C8 counterexample: invoking the unimplemented `ReRanker.rerank` at a
concrete input returns normally (with `None`) instead of raising — the
method is not abstract in the source, so "abstract/unimplemented method
invocation fails immediately" is false for the re-rank half. -/
theorem rerank_base_call_returns_normally :
    ReRanker.rerank (ReRanker.init paramsRR) "weather today" ["hi"]
        ["doc1", "doc2"] paramsRR = .ok none ∧
      (ReRanker.rerank (ReRanker.init paramsRR) "weather today" ["hi"]
        ["doc1", "doc2"] paramsRR).isOk = true :=
  ⟨rfl, rfl⟩

/-- C8 amended: instantiating either abstract base type directly fails
immediately (`TypeError` from the ABC machinery — `Retrieval.__init__` and
`Retrieval.retrieve`, and `ReRanker.__init__`, are `@abstractmethod`), so
the abstract `retrieve` can never be invoked on a base-type instance; but
the unimplemented `ReRanker.rerank` is not abstract, and invoking it
returns `None` normally for every input rather than failing. -/
theorem abstract_base_invocation_behavior :
    Retrieval.instantiateBase = .error .typeError ∧
      ReRanker.instantiateBase = .error .typeError ∧
      ∀ (self : ReRankerInst Msg Doc R) (query : String)
        (conv_list : List Msg) (result_list : List Doc)
        (params : Params Msg Doc R),
        ReRanker.rerank self query conv_list result_list params = .ok none :=
  ⟨rfl, rfl, fun _ _ _ _ _ => rfl⟩

/-- C9: when a reranker is configured and `retrieve` succeeds, the rerank
invocation recorded in the trace receives the instance's own
construction-time bundle `self.params` — its `query_generation`, `logger`
and `reranker` entries included — as the fourth argument. -/
theorem get_results_passes_self_params_to_rerank
    (rerankImpl : R → String → List Msg → List Doc → Params Msg Doc R →
      Except PyErr (List Doc))
    (retrieve : String → Except PyErr (List Doc))
    (self : RetrievalInst Msg Doc R) (conv_list : List Msg)
    (r : R) (result_list : List Doc)
    (hlog : self.params.logger = some ())
    (hrr : self.params.reranker = some r)
    (hretr : retrieve (self.query_generation.get_query conv_list) =
      .ok result_list) :
    Event.rerankCall (self.query_generation.get_query conv_list) conv_list
        result_list self.params ∈
      (Retrieval.get_results rerankImpl retrieve self conv_list).trace := by
  simp [Retrieval.get_results, hlog, hrr, hretr]

/-- Witness for C9 on the spec's worked example: the bundle passed to the
reranker is `instRR.params` itself. -/
theorem get_results_passes_self_params_to_rerank_witness :
    Event.rerankCall (instRR.query_generation.get_query ["hi"]) ["hi"]
        ["doc1", "doc2"] instRR.params ∈
      (Retrieval.get_results rerankStub retrieveStub instRR ["hi"]).trace :=
  get_results_passes_self_params_to_rerank rerankStub retrieveStub instRR
    ["hi"] () ["doc1", "doc2"] rfl rfl rfl

/-- Default event used to pad out-of-range trace indexing; it is neither a
logger call nor a retrieve call. -/
def Event.dummy : Event Msg Doc R :=
  .getQueryCall [] ""

/-- If a first predicate holds on the padded trace only at index `ip`, a
second only at index `iq`, and `ip < iq`, then every position satisfying
the first strictly precedes every position satisfying the second. -/
lemma getD_unique_lt {α : Type} (l : List α) (d : α) (p q : α → Bool)
    (ip iq : Nat) (hlt : ip < iq)
    (hp : ∀ i, p (l.getD i d) = true → i = ip)
    (hq : ∀ j, q (l.getD j d) = true → j = iq) :
    ∀ i j, p (l.getD i d) = true → q (l.getD j d) = true → i < j := by
  intro i j hi hj
  rw [hp i hi, hq j hj]
  exact hlt

/-- In a trace of the shape produced by `get_results` — some non-log head
event, the `info` event, the `retrieve` event, then a tail free of `info`
events — the only index holding an `info` event is 1. -/
lemma isLogInfo_getD_shape (e0 : Event Msg Doc R) (m qy : String)
    (tail : List (Event Msg Doc R)) (d : Event Msg Doc R)
    (h0 : e0.isLogInfo = false) ( _hd : d.isLogInfo = false)
    (ht : ∀ n, Event.isLogInfo (tail.getD n d) = false) :
    ∀ i, Event.isLogInfo
        ((e0 :: Event.logInfo m :: Event.retrieveCall qy :: tail).getD i d)
        = true → i = 1 := by
  intro i hi
  match i, hi with
  | 0, hi =>
    rw [List.getD_cons_zero, h0] at hi
    exact Bool.noConfusion hi
  | 1, _ => rfl
  | 2, hi =>
    rw [List.getD_cons_succ, List.getD_cons_succ, List.getD_cons_zero] at hi
    exact Bool.noConfusion hi
  | n+3, hi =>
    rw [List.getD_cons_succ, List.getD_cons_succ, List.getD_cons_succ,
      ht n] at hi
    exact Bool.noConfusion hi

/-- In a trace of the shape produced by `get_results` — some
non-retrieve head event, the `info` event, the `retrieve` event, then a
tail free of `retrieve` events — the only index holding a `retrieve`
event is 2. -/
lemma isRetrieveCall_getD_shape (e0 : Event Msg Doc R) (m qy : String)
    (tail : List (Event Msg Doc R)) (d : Event Msg Doc R)
    (h0 : e0.isRetrieveCall = false) ( _hd : d.isRetrieveCall = false)
    (ht : ∀ n, Event.isRetrieveCall (tail.getD n d) = false) :
    ∀ j, Event.isRetrieveCall
        ((e0 :: Event.logInfo m :: Event.retrieveCall qy :: tail).getD j d)
        = true → j = 2 := by
  intro j hj
  match j, hj with
  | 0, hj =>
    rw [List.getD_cons_zero, h0] at hj
    exact Bool.noConfusion hj
  | 1, hj =>
    rw [List.getD_cons_succ, List.getD_cons_zero] at hj
    exact Bool.noConfusion hj
  | 2, _ => rfl
  | n+3, hj =>
    rw [List.getD_cons_succ, List.getD_cons_succ, List.getD_cons_succ,
      ht n] at hj
    exact Bool.noConfusion hj

/-- C10: in every execution of `get_results` — including runs in which
`retrieve` or the reranker raises — every logger `info` event in the trace
occurs strictly before every `retrieve` invocation, and whenever
`retrieve` was invoked at all the query had already been logged. -/
theorem get_results_log_precedes_retrieve
    (rerankImpl : R → String → List Msg → List Doc → Params Msg Doc R →
      Except PyErr (List Doc))
    (retrieve : String → Except PyErr (List Doc))
    (self : RetrievalInst Msg Doc R) (conv_list : List Msg) :
    (∀ i j,
        Event.isLogInfo ((Retrieval.get_results rerankImpl retrieve self
          conv_list).trace.getD i Event.dummy) = true →
        Event.isRetrieveCall ((Retrieval.get_results rerankImpl retrieve
          self conv_list).trace.getD j Event.dummy) = true →
        i < j) ∧
      ((Retrieval.get_results rerankImpl retrieve self conv_list).trace.any
          Event.isRetrieveCall = true →
        (Retrieval.get_results rerankImpl retrieve self conv_list).trace.any
          Event.isLogInfo = true) := by
  cases hlog : self.params.logger with
  | none =>
    have htr : (Retrieval.get_results rerankImpl retrieve self
        conv_list).trace =
        [Event.getQueryCall conv_list
          (self.query_generation.get_query conv_list)] := by
      simp [Retrieval.get_results, hlog]
    rw [htr]
    constructor
    · intro i j hi hj
      exfalso
      match i, hi with
      | 0, hi =>
        rw [List.getD_cons_zero] at hi
        exact Bool.noConfusion hi
      | n+1, hi =>
        rw [List.getD_cons_succ, List.getD_nil] at hi
        exact Bool.noConfusion hi
    · intro h
      exact absurd h (by simp [Event.isRetrieveCall])
  | some u =>
    cases hretr : retrieve (self.query_generation.get_query conv_list) with
    | error e =>
      have htr : (Retrieval.get_results rerankImpl retrieve self
          conv_list).trace =
          Event.getQueryCall conv_list
              (self.query_generation.get_query conv_list) ::
            Event.logInfo ("New query: " ++
              self.query_generation.get_query conv_list) ::
            Event.retrieveCall
              (self.query_generation.get_query conv_list) :: [] := by
        simp [Retrieval.get_results, hlog, hretr]
      rw [htr]
      refine ⟨getD_unique_lt _ _ _ _ 1 2 (by omega)
        (isLogInfo_getD_shape _ _ _ _ _ rfl rfl ?_)
        (isRetrieveCall_getD_shape _ _ _ _ _ rfl rfl ?_), fun _ => rfl⟩
      · intro n
        rw [List.getD_nil]
        rfl
      · intro n
        rw [List.getD_nil]
        rfl
    | ok rl =>
      cases hrr : self.params.reranker with
      | none =>
        have htr : (Retrieval.get_results rerankImpl retrieve self
            conv_list).trace =
            Event.getQueryCall conv_list
                (self.query_generation.get_query conv_list) ::
              Event.logInfo ("New query: " ++
                self.query_generation.get_query conv_list) ::
              Event.retrieveCall
                (self.query_generation.get_query conv_list) :: [] := by
          simp [Retrieval.get_results, hlog, hretr, hrr]
        rw [htr]
        refine ⟨getD_unique_lt _ _ _ _ 1 2 (by omega)
          (isLogInfo_getD_shape _ _ _ _ _ rfl rfl ?_)
          (isRetrieveCall_getD_shape _ _ _ _ _ rfl rfl ?_), fun _ => rfl⟩
        · intro n
          rw [List.getD_nil]
          rfl
        · intro n
          rw [List.getD_nil]
          rfl
      | some r =>
        have htr : (Retrieval.get_results rerankImpl retrieve self
            conv_list).trace =
            Event.getQueryCall conv_list
                (self.query_generation.get_query conv_list) ::
              Event.logInfo ("New query: " ++
                self.query_generation.get_query conv_list) ::
              Event.retrieveCall
                (self.query_generation.get_query conv_list) ::
              Event.rerankCall (self.query_generation.get_query conv_list)
                conv_list rl self.params :: [] := by
          simp [Retrieval.get_results, hlog, hretr, hrr]
        rw [htr]
        refine ⟨getD_unique_lt _ _ _ _ 1 2 (by omega)
          (isLogInfo_getD_shape _ _ _ _ _ rfl rfl ?_)
          (isRetrieveCall_getD_shape _ _ _ _ _ rfl rfl ?_), fun _ => rfl⟩
        · intro n
          cases n with
          | zero => rfl
          | succ k => rfl
        · intro n
          cases n with
          | zero => rfl
          | succ k => rfl

/-- Witness for C10 on the spec's worked example with a reranker: the
`info` event sits at index 1 and the `retrieve` event at index 2 of the
trace, and the retrieve-implies-logged implication fires. -/
theorem get_results_log_precedes_retrieve_witness :
    (1 : Nat) < 2 ∧
      (Retrieval.get_results rerankStub retrieveStub instRR
        ["hi"]).trace.any Event.isLogInfo = true :=
  ⟨(get_results_log_precedes_retrieve rerankStub retrieveStub instRR
      ["hi"]).1 1 2 (by rfl) (by rfl),
    (get_results_log_precedes_retrieve rerankStub retrieveStub instRR
      ["hi"]).2 (by rfl)⟩

end Macaw
